import Mathlib

/-!
Verification of the fan-out/fan-in pipeline orchestrator of the dethi-ai
backend (`src/backend/app`), a shallow embedding of the Firestore-backed
progress tracking in `app/services/firestore_service.py`, the workers in
`app/workers/tasks.py`, and the generation entry point in
`app/api/routes.py`.

Modelling conventions, justified against the source:
* Every writer keys OCR pages and generated questions by `str(index)`
  (`ocr_pages[str(page_index)]`, `.document(str(i))`), so map keys are
  modelled as the natural-number index itself.
* Firestore fields absent from a document are only ever read back through
  `dict.get(key, default)` (default `0` for the counters, `"pending"` for
  statuses), and Python truthiness of `None` and `0` coincide in the one
  guard `snap.get("total")`, so numeric fields are modelled as plain
  integers with `0` standing for "absent" and statuses as strings with
  `"pending"` standing for "absent".  The presence of the `ocr_pages`
  field is observable (`"ocr_pages" not in doc_data` in
  `get_ocr_pages_results`), so that field keeps an `Option`.
* Document existence is observable (`if not doc_data`, `snap.exists`), so
  whole documents are `Option`-valued where the source checks existence.
* External collaborators (the LLM generators, the queue transport) are
  parameters / event lists, as the spec declares them out of scope.
-/

namespace DethiAi

/-- Python dict update `m[k] = v` for a map with `Nat` keys: overwrites the
entry in place if the key is present, otherwise appends it (insertion
order, as a Python dict). -/
def dictSet {α : Type} (m : List (Nat × α)) (k : Nat) (v : α) : List (Nat × α) :=
  match m with
  | [] => [(k, v)]
  | (k₁, v₁) :: rest => if k₁ = k then (k₁, v) :: rest else (k₁, v₁) :: dictSet rest k v

/-- Side effects emitted by the OCR fan-in path; `enqueueExtract` is the
`enqueue_extract(doc_id)` call in `update_ocr_page_result`. -/
inductive Event
  | enqueueExtract
  deriving DecidableEq

/-- The fields of the Firestore `documents/{doc_id}` record that
`update_ocr_page_result` and `get_ocr_pages_results` touch.  The remaining
fields of the document (filename, storage path, `extract_status`, ...) are
not read by these functions and are elided. -/
structure DocState where
  ocr_total : Nat
  ocr_completed : Nat
  ocr_status : String
  ocr_pages : Option (List (Nat × String))
  deriving DecidableEq

/-- `firestore_service.update_ocr_page_result`, run as one sequential
invocation: read the document (`doc_ref.get()`); if missing, log and
return; otherwise write the page into `ocr_pages` and apply
`Increment(1)` to `ocr_completed` in one `set(merge=True)`; then decide
completion from `doc_data.get("ocr_completed", 0) + 1` — the value read
BEFORE the increment, plus one — and, if `completed >= total and
total > 0`, set `ocr_status = "done"` and enqueue extraction. -/
def update_ocr_page_result (doc : Option DocState) (page_index : Nat)
    (markdown_content : String) : Option DocState × List Event :=
  match doc with
  | none => (none, [])
  | some d =>
    let pages := dictSet (d.ocr_pages.getD []) page_index markdown_content
    let d₁ : DocState :=
      { d with ocr_pages := some pages, ocr_completed := d.ocr_completed + 1 }
    let completed := d.ocr_completed + 1
    let total := d.ocr_total
    if total ≤ completed ∧ 0 < total then
      (some { d₁ with ocr_status := "done" }, [Event.enqueueExtract])
    else
      (some d₁, [])

/-- `firestore_service.get_ocr_pages_results`: missing document or missing
`ocr_pages` field yields `[]`; otherwise one entry per index
`0..ocr_total-1`, the stored page or the error placeholder.  (The source's
integer-key fallback `ocr_pages.get(i, ...)` can never find anything the
string key missed, since all writers use string keys; both lookups
collapse to one lookup here.) -/
def get_ocr_pages_results (doc : Option DocState) : List String :=
  match doc with
  | none => []
  | some d =>
    match d.ocr_pages with
    | none => []
    | some m =>
      (List.range d.ocr_total).map fun i =>
        (m.lookup i).getD "% ERROR: Page not found"

/-- Program counter of one in-flight `update_ocr_page_result` invocation,
split at its atomic Firestore operations: the initial `doc_ref.get()`
snapshot read, the single `set(merge=True)` carrying the page write plus
`Increment(1)`, and the local completion decision (which reads only the
snapshot).  `toInc pre` / `toDecide pre` carry the `ocr_completed` value
of the snapshot. -/
inductive WPhase
  | toRead
  | toInc (pre : Nat)
  | toDecide (pre : Nat)
  | finished (fired : Bool)
  deriving DecidableEq

/-- One atomic step of an `update_ocr_page_result` invocation for page
`page_index`, against the live store `st`. -/
def workerStep (page_index : Nat) (content : String) :
    DocState × List Event × WPhase → DocState × List Event × WPhase
  | (st, evs, WPhase.toRead) => (st, evs, WPhase.toInc st.ocr_completed)
  | (st, evs, WPhase.toInc pre) =>
    ({ st with
        ocr_pages := some (dictSet (st.ocr_pages.getD []) page_index content),
        ocr_completed := st.ocr_completed + 1 }, evs, WPhase.toDecide pre)
  | (st, evs, WPhase.toDecide pre) =>
    if st.ocr_total ≤ pre + 1 ∧ 0 < st.ocr_total then
      ({ st with ocr_status := "done" }, evs ++ [Event.enqueueExtract],
        WPhase.finished true)
    else
      (st, evs, WPhase.finished false)
  | (st, evs, WPhase.finished b) => (st, evs, WPhase.finished b)

/-- Two concurrent `update_ocr_page_result` invocations — worker 0 for
page 0 and worker 1 for page 1 — over one shared document. -/
structure OcrRun where
  store : DocState
  events : List Event
  w0 : WPhase
  w1 : WPhase
  deriving DecidableEq

/-- Let the scheduled worker (`false` = worker 0, `true` = worker 1)
perform its next atomic step. -/
def schedStep (r : OcrRun) (w : Bool) : OcrRun :=
  if w then
    let s := workerStep 1 "page one" (r.store, r.events, r.w1)
    { r with store := s.1, events := s.2.1, w1 := s.2.2 }
  else
    let s := workerStep 0 "page zero" (r.store, r.events, r.w0)
    { r with store := s.1, events := s.2.1, w0 := s.2.2 }

/-- Run an interleaving schedule of the two workers. -/
def runSched (r : OcrRun) (sched : List Bool) : OcrRun :=
  sched.foldl schedStep r

/-- The document progress fields as written by `tasks.ocr_and_extract`
just before fanning out the page jobs: `ocr_total` pages, a zeroed
counter, an empty `ocr_pages` map, status `"processing"`. -/
def ocrInitDoc (n : Nat) : DocState :=
  { ocr_total := n, ocr_completed := 0, ocr_status := "processing",
    ocr_pages := some [] }

/-- One page-completion delivery to the OCR fan-in: the state change of
`update_ocr_page_result` for page `d.1` with markdown `d.2` (the worker
calls it with real markdown on success and with an error string on
failure — either way the same state update; the enqueue side effect is
the subject of C1/C2 and not consulted here). -/
def applyOcrDelivery (doc : Option DocState) (d : Nat × String) :
    Option DocState :=
  (update_ocr_page_result doc d.1 d.2).1

/-- The stored OCR completed-count as read back (0 when the document is
absent). -/
def ocrCompleted (doc : Option DocState) : Nat :=
  match doc with | some d => d.ocr_completed | none => 0

/-- The stored OCR page total as read back (0 when the document is
absent). -/
def ocrTotal (doc : Option DocState) : Nat :=
  match doc with | some d => d.ocr_total | none => 0

/-- The fields of a `generated_exams/{gen_id}` record read or written by
the generation pipeline (`metadata`, `created_at` and `updated_at` are
write-only payload and are elided).  `total` is an `Int` because
`routes.start_generation` stores `min(len(selected), target_count)` of a
raw request integer. -/
structure GenDoc where
  total : Int
  completed : Int
  status : String
  deriving DecidableEq

/-- One document of the `questions` subcollection of a generated exam.
`payload` stands for the generated question content merged in by
`append_generated_question`; `error` for the `{"error": ...}` patch of the
failure path.  The `original_id` and timestamp fields are write-only
payload and are elided. -/
structure QDoc where
  status : String
  payload : Option String
  error : Option String
  deriving DecidableEq

/-- A generated exam: the exam record (`none` when the Firestore document
does not exist) plus its `questions` subcollection, keyed by the numeric
document id `str(i)`. -/
structure GenExam where
  meta : Option GenDoc
  questions : List (Nat × QDoc)
  deriving DecidableEq

/-- The state before `create_generated_exam` has run: no exam record, no
question documents. -/
def emptyExam : GenExam := { meta := none, questions := [] }

/-- The question record written by `init_generated_exam_questions`:
`{"status": "pending", ...}` (with `original_id` and `created_at` elided). -/
def pendingQDoc : QDoc := { status := "pending", payload := none, error := none }

/-- Firestore `set(merge=True)` on one question document: apply `f` to the
existing document (or to `none` if absent), in place. -/
def upsertQ (m : List (Nat × QDoc)) (k : Nat) (f : Option QDoc → QDoc) :
    List (Nat × QDoc) :=
  match m with
  | [] => [(k, f none)]
  | (k₁, v₁) :: rest =>
    if k₁ = k then (k₁, f (some v₁)) :: rest else (k₁, v₁) :: upsertQ rest k f

/-- `firestore_service.create_generated_exam`: a plain `set` writing
`status = "processing" if total > 0 else "pending"`, `total`,
`completed = 0`. -/
def create_generated_exam (total : Int) (st : GenExam) : GenExam :=
  let d : GenDoc :=
    { total := total, completed := 0,
      status := if 0 < total then "processing" else "pending" }
  { st with meta := some d }

/-- `firestore_service.increment_generated_exam_progress`: a
`set({"completed": Increment(1)}, merge=True)` — which CREATES the record
if it does not exist — followed by a separate `ref.get()` (in this
sequential embedding the read returns exactly the state just written),
then the auto-finish check `if snap.get("total") and
snap.get("completed", 0) >= snap.get("total")` (Python truthiness: the
guard passes iff `total` is present and nonzero), which blindly writes
`status = "done"`. -/
def increment_generated_exam_progress (st : GenExam) : GenExam :=
  let d : GenDoc :=
    match st.meta with
    | some d₀ => { d₀ with completed := d₀.completed + 1 }
    | none => { total := 0, completed := 1, status := "pending" }
  if d.total ≠ 0 ∧ d.total ≤ d.completed then
    { st with meta := some { d with status := "done" } }
  else
    { st with meta := some d }

/-- The merge performed for each placeholder by
`init_generated_exam_questions`: `set({..., "status": "pending"},
merge=True)` overwrites `status` and leaves other fields of an existing
document alone. -/
def initQMerge (old : Option QDoc) : QDoc :=
  match old with
  | some o => { o with status := "pending" }
  | none => pendingQDoc

/-- `firestore_service.init_generated_exam_questions`: one batched write
creating the placeholder `{"status": "pending"}` under document id
`str(i)` for each `i` below the number of selected questions (only the
enumeration index of each selected question is used). -/
def init_generated_exam_questions (selected : List String) (st : GenExam) :
    GenExam :=
  let qs := (List.range selected.length).foldl
    (fun m i => upsertQ m i initQMerge) st.questions
  { st with questions := qs }

/-- `firestore_service.append_generated_question`: merge the generated
element plus `status = "done"` into question document `str(question_index)`. -/
def append_generated_question (question_index : Nat) (el : String)
    (st : GenExam) : GenExam :=
  let qs := upsertQ st.questions question_index fun old =>
    match old with
    | some o => { o with status := "done", payload := some el }
    | none => { status := "done", payload := some el, error := none }
  { st with questions := qs }

/-- `firestore_service.set_generated_question_status`: merge
`{"status": status}` plus the optional `patch` (`{"error": msg}` on the
failure path) into question document `str(question_index)`. -/
def set_generated_question_status (question_index : Nat) (status : String)
    (patch : Option String) (st : GenExam) : GenExam :=
  let qs := upsertQ st.questions question_index fun old =>
    match old with
    | some o => { o with status := status, error := patch <|> o.error }
    | none => { status := status, payload := none, error := patch }
  { st with questions := qs }

/-- The sort key of `list_generated_exam`: Python's
`sorted(questions, key=lambda x: int(x["id"]))` compares the numeric
document ids (every stored id is `str(i)`, so the non-digit branch of the
source's key function is unreachable). -/
def qKeyLE (a b : Nat × QDoc) : Prop := a.1 ≤ b.1

instance : DecidableRel qKeyLE := fun a b => Nat.decLe a.1 b.1

instance : IsTotal (Nat × QDoc) qKeyLE := ⟨fun a b => Nat.le_total a.1 b.1⟩

instance : IsTrans (Nat × QDoc) qKeyLE := ⟨fun _ _ _ h₁ h₂ => Nat.le_trans h₁ h₂⟩

/-- The value returned by `firestore_service.list_generated_exam`. -/
structure ExamView where
  status : String
  total : Int
  completed : Int
  elements : List (Nat × QDoc)
  deriving DecidableEq

/-- `firestore_service.list_generated_exam`: read the exam record (`{}`
when absent, every field through `.get` with defaults `"pending"` / `0`),
stream the `questions` subcollection in arbitrary store order, and sort by
ascending numeric document id (a stable sort, matching Python `sorted`). -/
def list_generated_exam (st : GenExam) : ExamView :=
  let status := match st.meta with | some d => d.status | none => "pending"
  let total := match st.meta with | some d => d.total | none => 0
  let completed := match st.meta with | some d => d.completed | none => 0
  { status := status, total := total, completed := completed,
    elements := List.insertionSort qKeyLE st.questions }

/-- `tasks.generate_one_question`: mark the question `processing`, run the
per-type generator (an external LLM call, passed in as `compute`), and on
success merge the generated question and increment the job counter; on
ANY exception record `status = "error"` with the error detail on the
question document — and perform no counter update. -/
def generate_one_question (compute : String → Except String String)
    (q : String) (question_index : Nat) (st : GenExam) : GenExam :=
  let st₁ := set_generated_question_status question_index "processing" none st
  match compute q with
  | Except.ok new_q =>
    increment_generated_exam_progress
      (append_generated_question question_index new_q st₁)
  | Except.error e =>
    set_generated_question_status question_index "error" (some e) st₁

/-- One delivery of a unit completion to the generation worker: unit index
plus whether its compute step succeeds. -/
def applyDelivery (st : GenExam) (d : Nat × Bool) : GenExam :=
  generate_one_question
    (fun q => if d.2 then Except.ok ("generated " ++ q) else Except.error "unit failed")
    "q" d.1 st

/-- The exam record's completed counter as read back (`0` when the record
is absent). -/
def metaCompleted (st : GenExam) : Int :=
  match st.meta with | some d => d.completed | none => 0

/-- The exam record's total as read back (`0` when the record is absent). -/
def metaTotal (st : GenExam) : Int :=
  match st.meta with | some d => d.total | none => 0

/-- The exam record's status as read back (`"pending"` when the record is
absent). -/
def genStatus (st : GenExam) : String :=
  match st.meta with | some d => d.status | none => "pending"

/-- Python list slice `l[:t]` for a possibly negative `t`. -/
def pyTake {α : Type} (t : Int) (l : List α) : List α :=
  if 0 ≤ t then l.take t.toNat else l.take ((l.length : Int) + t).toNat

/-- The side-effecting calls of `routes.start_generation`, in program
order: the exam record write (`create_generated_exam`), the batched
placeholder write (`init_generated_exam_questions`), then one queue
dispatch per unit (`enqueue_generate_questions`). -/
inductive StartEvent
  | writeJob (d : GenDoc)
  | batchWriteUnits (ids : List Nat)
  | dispatch (question_index : Nat)
  deriving DecidableEq

/-- `routes.start_generation` after auth and document lookup: reject an
empty selection (HTTP 400, modelled as `none`), otherwise
`total = min(len(selected), target_count)`, create the exam record, batch
the placeholders for `selected[:total]`, then enqueue one task per
element of `selected[:target_count]`.  Returns the resulting exam state
and the ordered trace of side-effecting calls. -/
def start_generation (selected : List String) (target_count : Int) :
    Option (GenExam × List StartEvent) :=
  if selected = [] then none
  else
    let total : Int := min (selected.length : Int) target_count
    let st₁ := create_generated_exam total emptyExam
    let chosen := pyTake total selected
    let st₂ := init_generated_exam_questions chosen st₁
    let tasks := pyTake target_count selected
    let jobDoc : GenDoc :=
      { total := total, completed := 0,
        status := if 0 < total then "processing" else "pending" }
    some (st₂,
      StartEvent.writeJob jobDoc
        :: StartEvent.batchWriteUnits (List.range chosen.length)
        :: (List.range tasks.length).map StartEvent.dispatch)

/-- A concrete two-page document with page 1's OCR result missing, used
to exercise `get_ocr_pages_results`. -/
def twoPageDoc : DocState :=
  { ocr_total := 2, ocr_completed := 2, ocr_status := "done",
    ocr_pages := some [(0, "alpha")] }

/-- A concrete generated exam whose question documents are streamed out of
id order, used to exercise `list_generated_exam`. -/
def midExam : GenExam :=
  { meta := some { total := 3, completed := 2, status := "processing" },
    questions := [(2, pendingQDoc), (0, pendingQDoc)] }

/-- Running one worker's three atomic steps back to back is exactly the
sequential `update_ocr_page_result`, so the step machine is a faithful
decomposition of the source function. -/
theorem workerStep_three_eq_update (d : DocState) (p : Nat) (c : String) :
    workerStep p c (workerStep p c (workerStep p c (d, [], WPhase.toRead)))
      = ((update_ocr_page_result (some d) p c).1.getD d,
         (update_ocr_page_result (some d) p c).2, WPhase.finished
           (decide (d.ocr_total ≤ d.ocr_completed + 1 ∧ 0 < d.ocr_total))) := by
  simp only [workerStep, update_ocr_page_result]
  by_cases h : d.ocr_total ≤ d.ocr_completed + 1 ∧ 0 < d.ocr_total
  · simp [h]
  · simp [h]

/-- C1: the completion side effect is NOT at-most-once.  A one-page OCR
job whose single page completion is delivered twice (at-least-once
delivery) enqueues extraction on BOTH deliveries: every invocation whose
pre-read count + 1 reaches the total fires the transition, because the
status write is unconditional (no compare-and-set) and the decision does
not consult the unit's prior state. -/
theorem c1_completion_effect_fires_twice :
    (update_ocr_page_result
        (some { ocr_total := 1, ocr_completed := 0, ocr_status := "processing",
                ocr_pages := some [] }) 0 "page zero").2 = [Event.enqueueExtract] ∧
    (update_ocr_page_result
        (update_ocr_page_result
          (some { ocr_total := 1, ocr_completed := 0, ocr_status := "processing",
                  ocr_pages := some [] }) 0 "page zero").1 0 "page zero").2
      = [Event.enqueueExtract] := by
  exact ⟨rfl, rfl⟩

/-- C2: the completion decision is NOT computed from the post-increment
value of the atomic increment.  For a two-page document, interleaving the
two page workers as read/read/increment/increment/decide/decide makes
both workers decide from their pre-increment snapshot (`0 + 1 < 2`):
neither fires, extraction is never enqueued, and the job is left with
`ocr_completed = 2 = ocr_total` but status still `"processing"` — had the
decision used the post-increment value of its own increment, the second
increment would have observed `2 ≥ 2` and fired. -/
theorem c2_decision_uses_pre_read_value :
    runSched
        { store := { ocr_total := 2, ocr_completed := 0,
                     ocr_status := "processing", ocr_pages := some [] },
          events := [], w0 := WPhase.toRead, w1 := WPhase.toRead }
        [false, true, false, true, false, true]
      = { store := { ocr_total := 2, ocr_completed := 2,
                     ocr_status := "processing",
                     ocr_pages := some [(0, "page zero"), (1, "page one")] },
          events := [], w0 := WPhase.finished false,
          w1 := WPhase.finished false } := by
  rfl

/-- C3: a failed compute step does NOT count toward completion in the
generation path.  Three-unit job, unit 0's generator raises, units 1 and 2
succeed: the exception handler of `generate_one_question` records the
error on the question document but never calls
`increment_generated_exam_progress`, so the job ends with
`completed = 2`, status still `"processing"` (never `"done"`), even
though all three units have arrived. -/
theorem c3_failed_unit_not_counted :
    (let st := init_generated_exam_questions ["q0", "q1", "q2"]
        (create_generated_exam 3 emptyExam)
     let st₃ := generate_one_question (fun q => Except.ok ("generated " ++ q)) "q2" 2
        (generate_one_question (fun q => Except.ok ("generated " ++ q)) "q1" 1
          (generate_one_question (fun _ => Except.error "llm failed") "q0" 0 st))
     st₃.meta = some { total := 3, completed := 2, status := "processing" } ∧
       (st₃.questions.lookup 0).map QDoc.status = some "error" ∧
       (st₃.questions.lookup 1).map QDoc.status = some "done" ∧
       (st₃.questions.lookup 2).map QDoc.status = some "done") := by
  exact ⟨rfl, rfl, rfl, rfl⟩

/-- C4: duplicate redelivery is NOT idempotent on the counter.  One-unit
job: the first invocation of the worker for unit 0 brings
`completed` to 1 and marks the exam done; re-invoking the same worker for
the same `(job, unit 0)` overwrites the same question slot (the
subcollection still has exactly one document) but increments the counter
AGAIN, leaving `completed = 2` past its correct final value 1, and
re-executes the auto-finish branch. -/
theorem c4_redelivery_not_idempotent :
    (let st := init_generated_exam_questions ["q0"]
        (create_generated_exam 1 emptyExam)
     let once := generate_one_question (fun q => Except.ok ("generated " ++ q)) "q0" 0 st
     let twice := generate_one_question (fun q => Except.ok ("generated " ++ q)) "q0" 0 once
     once.meta = some { total := 1, completed := 1, status := "done" } ∧
       twice.meta = some { total := 1, completed := 2, status := "done" } ∧
       twice.questions.length = 1) := by
  exact ⟨rfl, rfl, rfl⟩

/-- After `k` calls of `increment_generated_exam_progress` on an exam
created with `total = 0`, the record is exactly
`total = 0, completed = k, status = "pending"`: the auto-finish guard
`snap.get("total")` is falsy for a zero total, so the status write is
never reached. -/
theorem iterate_increment_zero_total (k : Nat) :
    increment_generated_exam_progress^[k] (create_generated_exam 0 emptyExam)
      = { meta := some { total := 0, completed := (k : Int), status := "pending" },
          questions := [] } := by
  induction k with
  | zero => rfl
  | succ n ih =>
    rw [Function.iterate_succ_apply', ih]
    simp only [increment_generated_exam_progress]
    norm_num

/-- C6: a job created with `total_units = 0` never auto-transitions to
`done` through the counter path: after any number of progress increments
its status is still not `"done"`. -/
theorem c6_zero_total_never_done (k : Nat) :
    genStatus (increment_generated_exam_progress^[k]
        (create_generated_exam 0 emptyExam)) ≠ "done" := by
  rw [iterate_increment_zero_total]
  simp [genStatus]

/-- C8: a progress increment for a missing job record does NOT fail with
a job-not-found error.  The OCR path (`update_ocr_page_result`) logs and
returns silently with no state change; the generated-exam path
(`increment_generated_exam_progress`) silently SUCCEEDS with a state
change: the `set(merge=True)` carrying `Increment(1)` creates the exam
record out of thin air with `completed = 1`. -/
theorem c8_missing_job_no_error :
    (∀ p c, update_ocr_page_result none p c = (none, [])) ∧
    increment_generated_exam_progress emptyExam
      = { meta := some { total := 0, completed := 1, status := "pending" },
          questions := [] } := by
  exact ⟨fun p c => rfl, rfl⟩

/-- One progress increment never changes the exam record's `total` (a
missing record reads back as `total = 0` and is created with no `total`
field, which also reads back as `0`). -/
theorem metaTotal_increment (st : GenExam) :
    metaTotal (increment_generated_exam_progress st) = metaTotal st := by
  rcases hm : st.meta with _ | g
  · simp [increment_generated_exam_progress, metaTotal, hm]
  · simp only [increment_generated_exam_progress, hm]
    split <;> simp [metaTotal, hm]

/-- One progress increment adds exactly one to the counter as read back. -/
theorem metaCompleted_increment (st : GenExam) :
    metaCompleted (increment_generated_exam_progress st) = metaCompleted st + 1 := by
  rcases hm : st.meta with _ | g
  · simp [increment_generated_exam_progress, metaCompleted, hm]
  · simp only [increment_generated_exam_progress, hm]
    split <;> simp [metaCompleted, hm]

/-- A worker invocation never changes the exam record's `total`. -/
theorem metaTotal_applyDelivery (st : GenExam) (d : Nat × Bool) :
    metaTotal (applyDelivery st d) = metaTotal st := by
  obtain ⟨i, b⟩ := d
  cases b with
  | false => rfl
  | true =>
    have h : applyDelivery st (i, true)
        = increment_generated_exam_progress (append_generated_question i
            ("generated " ++ "q")
            (set_generated_question_status i "processing" none st)) := rfl
    rw [h, metaTotal_increment]
    rfl

/-- A worker invocation adds exactly one to the exam record's `completed`
counter when its compute step succeeds, and zero when it fails. -/
theorem metaCompleted_applyDelivery (st : GenExam) (d : Nat × Bool) :
    metaCompleted (applyDelivery st d)
      = metaCompleted st + (if d.2 then 1 else 0) := by
  obtain ⟨i, b⟩ := d
  cases b with
  | false =>
    have h : metaCompleted (applyDelivery st (i, false)) = metaCompleted st := rfl
    rw [h]
    simp
  | true =>
    have h : applyDelivery st (i, true)
        = increment_generated_exam_progress (append_generated_question i
            ("generated " ++ "q")
            (set_generated_question_status i "processing" none st)) := rfl
    rw [h, metaCompleted_increment]
    have h₂ : metaCompleted (append_generated_question i ("generated " ++ "q")
        (set_generated_question_status i "processing" none st))
        = metaCompleted st := rfl
    rw [h₂]
    simp

/-- Over any sequence of worker deliveries, `total` is unchanged and
`completed` grows by exactly the number of successful compute steps. -/
theorem foldl_applyDelivery_meta (ds : List (Nat × Bool)) (st : GenExam) :
    metaTotal (List.foldl applyDelivery st ds) = metaTotal st ∧
    metaCompleted (List.foldl applyDelivery st ds)
      = metaCompleted st + (ds.countP (fun d => d.2) : Int) := by
  induction ds generalizing st with
  | nil => simp
  | cons a l ih =>
    simp only [List.foldl_cons, List.countP_cons]
    refine ⟨?_, ?_⟩
    · rw [(ih _).1, metaTotal_applyDelivery]
    · rw [(ih _).2, metaCompleted_applyDelivery]
      by_cases hb : a.2
      · simp [hb]
        omega
      · simp [hb]

/-- A delivery list with pairwise-distinct unit indices all below `n` has
at most `n` elements. -/
theorem nodup_indices_length_le {α : Type} (ds : List (Nat × α)) (n : Nat)
    (hnd : (ds.map Prod.fst).Nodup) (hlt : ∀ i ∈ ds.map Prod.fst, i < n) :
    ds.length ≤ n := by
  have h1 : (ds.map Prod.fst).toFinset ⊆ Finset.range n := by
    intro i hi
    simp only [List.mem_toFinset] at hi
    exact Finset.mem_range.mpr (hlt i hi)
  have h2 := Finset.card_le_card h1
  rwa [List.toFinset_card_of_nodup hnd, Finset.card_range, List.length_map] at h2

/-- Every page delivery to an existing document adds exactly one to its
`ocr_completed` and leaves `ocr_total` unchanged (the document stays
present), so a fold of deliveries grows the counter by the number of
deliveries. -/
theorem foldl_applyOcrDelivery (ps : List (Nat × String)) (d : DocState) :
    ∃ d₁, List.foldl applyOcrDelivery (some d) ps = some d₁ ∧
      d₁.ocr_completed = d.ocr_completed + ps.length ∧
      d₁.ocr_total = d.ocr_total := by
  induction ps generalizing d with
  | nil => exact ⟨d, rfl, rfl, rfl⟩
  | cons a l ih =>
    have hstep : ∃ d₂, applyOcrDelivery (some d) a = some d₂ ∧
        d₂.ocr_completed = d.ocr_completed + 1 ∧ d₂.ocr_total = d.ocr_total := by
      simp only [applyOcrDelivery, update_ocr_page_result]
      split
      · exact ⟨_, rfl, rfl, rfl⟩
      · exact ⟨_, rfl, rfl, rfl⟩
    obtain ⟨d₂, hd₂, hc, ht⟩ := hstep
    obtain ⟨d₁, h1, h2, h3⟩ := ih d₂
    refine ⟨d₁, ?_, ?_, ?_⟩
    · rw [List.foldl_cons, hd₂, h1]
    · rw [h2, hc, List.length_cons]
      omega
    · rw [h3, ht]

/-- C5 amended, for both fan-in counters.  For a generation job created
with `total = n` and any sequence of worker deliveries in which no unit
index is delivered twice, the stored counter satisfies
`0 ≤ completed ≤ total` at every prefix of the sequence and is
monotonically non-decreasing from each prefix to the next; likewise, for
an OCR document initialised with `ocr_total = m` and any sequence of
page-result deliveries in which no page index is delivered twice,
`0 ≤ ocr_completed ≤ ocr_total` holds at every prefix and the counter is
monotonically non-decreasing.  (The bounds need the no-duplicate
hypotheses: the claim as stated fails under duplicate delivery — see the
counterexample.) -/
theorem c5_counter_in_bounds (n : Nat) (ds : List (Nat × Bool)) (k : Nat)
    (hnd : (ds.map Prod.fst).Nodup)
    (hlt : ∀ i ∈ ds.map Prod.fst, i < n)
    (m : Nat) (ps : List (Nat × String))
    (hpnd : (ps.map Prod.fst).Nodup)
    (hplt : ∀ i ∈ ps.map Prod.fst, i < m) :
    0 ≤ metaCompleted (List.foldl applyDelivery
        (create_generated_exam (n : Int) emptyExam) (ds.take k)) ∧
    metaCompleted (List.foldl applyDelivery
        (create_generated_exam (n : Int) emptyExam) (ds.take k))
      ≤ metaTotal (List.foldl applyDelivery
        (create_generated_exam (n : Int) emptyExam) (ds.take k)) ∧
    metaCompleted (List.foldl applyDelivery
        (create_generated_exam (n : Int) emptyExam) (ds.take k))
      ≤ metaCompleted (List.foldl applyDelivery
        (create_generated_exam (n : Int) emptyExam) (ds.take (k + 1))) ∧
    0 ≤ ocrCompleted (List.foldl applyOcrDelivery
        (some (ocrInitDoc m)) (ps.take k)) ∧
    ocrCompleted (List.foldl applyOcrDelivery (some (ocrInitDoc m)) (ps.take k))
      ≤ ocrTotal (List.foldl applyOcrDelivery (some (ocrInitDoc m)) (ps.take k)) ∧
    ocrCompleted (List.foldl applyOcrDelivery (some (ocrInitDoc m)) (ps.take k))
      ≤ ocrCompleted (List.foldl applyOcrDelivery
        (some (ocrInitDoc m)) (ps.take (k + 1))) := by
  have hlen : ds.length ≤ n := nodup_indices_length_le ds n hnd hlt
  have hk := foldl_applyDelivery_meta (ds.take k)
    (create_generated_exam (n : Int) emptyExam)
  have hk1 := foldl_applyDelivery_meta (ds.take (k + 1))
    (create_generated_exam (n : Int) emptyExam)
  have hcreate : metaCompleted (create_generated_exam (n : Int) emptyExam) = 0 := rfl
  have htot : metaTotal (create_generated_exam (n : Int) emptyExam) = (n : Int) := rfl
  have hcount : (ds.take k).countP (fun d => d.2) ≤ n := by
    have h1 : (ds.take k).countP (fun d => d.2) ≤ (ds.take k).length :=
      List.countP_le_length (fun d : Nat × Bool => d.2)
    have h2 : (ds.take k).length ≤ ds.length := by
      rw [List.length_take]; omega
    omega
  have hmono : (ds.take k).countP (fun d => d.2)
      ≤ (ds.take (k + 1)).countP (fun d => d.2) := by
    have hsub : List.Sublist (ds.take k) (ds.take (k + 1)) := by
      have h := List.take_sublist k (ds.take (k + 1))
      rwa [List.take_take, min_eq_left (Nat.le_succ k)] at h
    exact hsub.countP_le _
  have hplen : ps.length ≤ m := nodup_indices_length_le ps m hpnd hplt
  obtain ⟨dk, hdk, hck, htk⟩ := foldl_applyOcrDelivery (ps.take k) (ocrInitDoc m)
  obtain ⟨dk1, hdk1, hck1, _⟩ := foldl_applyOcrDelivery (ps.take (k + 1)) (ocrInitDoc m)
  rw [hk.1, hk.2, hk1.2, hcreate, htot, hdk, hdk1]
  have hO1 : ocrCompleted (some dk) = dk.ocr_completed := rfl
  have hO2 : ocrTotal (some dk) = dk.ocr_total := rfl
  have hO3 : ocrCompleted (some dk1) = dk1.ocr_completed := rfl
  rw [hO1, hO2, hO3]
  have hinitc : (ocrInitDoc m).ocr_completed = 0 := rfl
  have hinitt : (ocrInitDoc m).ocr_total = m := rfl
  have hlk : (ps.take k).length ≤ (ps.take (k + 1)).length := by
    rw [List.length_take, List.length_take]; omega
  have hlkm : (ps.take k).length ≤ ps.length := by
    rw [List.length_take]; omega
  refine ⟨?_, ?_, ?_, ?_, ?_, ?_⟩ <;> omega

/-- C5 counterexample: duplicate delivery of a unit completion drives the
stored counter past `total` on both fan-in paths — after the single unit
of a one-unit generation job is counted twice, `completed = 2 > 1 =
total`, and after the single page of a one-page OCR job is delivered
twice, `ocr_completed = 2 > 1 = ocr_total`, so `completed ≤ total` fails
for the code as written. -/
theorem c5_counterexample_duplicate_exceeds_total :
    ¬ (metaCompleted (increment_generated_exam_progress
          (increment_generated_exam_progress (create_generated_exam 1 emptyExam)))
        ≤ metaTotal (increment_generated_exam_progress
          (increment_generated_exam_progress (create_generated_exam 1 emptyExam)))) ∧
    ¬ (ocrCompleted (applyOcrDelivery (applyOcrDelivery
          (some (ocrInitDoc 1)) (0, "page zero")) (0, "page zero"))
        ≤ ocrTotal (applyOcrDelivery (applyOcrDelivery
          (some (ocrInitDoc 1)) (0, "page zero")) (0, "page zero"))) := by
  exact ⟨by decide, by decide⟩

/-- Witness for the amended C5 at a concrete two-unit generation job with
one success and one failure delivered once each, and a concrete two-page
OCR job with both pages delivered once each. -/
theorem c5_counter_in_bounds_witness :
    0 ≤ metaCompleted (List.foldl applyDelivery
        (create_generated_exam ((2 : Nat) : Int) emptyExam)
        ([(0, true), (1, false)].take 1)) ∧
    metaCompleted (List.foldl applyDelivery
        (create_generated_exam ((2 : Nat) : Int) emptyExam)
        ([(0, true), (1, false)].take 1))
      ≤ metaTotal (List.foldl applyDelivery
        (create_generated_exam ((2 : Nat) : Int) emptyExam)
        ([(0, true), (1, false)].take 1)) ∧
    metaCompleted (List.foldl applyDelivery
        (create_generated_exam ((2 : Nat) : Int) emptyExam)
        ([(0, true), (1, false)].take 1))
      ≤ metaCompleted (List.foldl applyDelivery
        (create_generated_exam ((2 : Nat) : Int) emptyExam)
        ([(0, true), (1, false)].take (1 + 1))) ∧
    0 ≤ ocrCompleted (List.foldl applyOcrDelivery (some (ocrInitDoc 2))
        ([(0, "page zero"), (1, "page one")].take 1)) ∧
    ocrCompleted (List.foldl applyOcrDelivery (some (ocrInitDoc 2))
        ([(0, "page zero"), (1, "page one")].take 1))
      ≤ ocrTotal (List.foldl applyOcrDelivery (some (ocrInitDoc 2))
        ([(0, "page zero"), (1, "page one")].take 1)) ∧
    ocrCompleted (List.foldl applyOcrDelivery (some (ocrInitDoc 2))
        ([(0, "page zero"), (1, "page one")].take 1))
      ≤ ocrCompleted (List.foldl applyOcrDelivery (some (ocrInitDoc 2))
        ([(0, "page zero"), (1, "page one")].take (1 + 1))) :=
  c5_counter_in_bounds 2 [(0, true), (1, false)] 1 (by decide) (by decide)
    2 [(0, "page zero"), (1, "page one")] (by decide) (by decide)

/-- Merging into a key absent from the map appends a fresh entry. -/
theorem upsertQ_fresh (m : List (Nat × QDoc)) (k : Nat) (f : Option QDoc → QDoc)
    (h : ∀ p ∈ m, p.1 ≠ k) : upsertQ m k f = m ++ [(k, f none)] := by
  induction m with
  | nil => rfl
  | cons a rest ih =>
    simp only [upsertQ]
    rw [if_neg (h a (by simp)), ih (fun p hp => h p (by simp [hp]))]
    simp

/-- The placeholder batch, run over ids `0..n-1` against an empty
subcollection, produces exactly the pending placeholders in id order. -/
theorem initFold_range (n : Nat) :
    (List.range n).foldl (fun m i => upsertQ m i initQMerge) []
      = (List.range n).map (fun i => (i, pendingQDoc)) := by
  induction n with
  | zero => rfl
  | succ n ih =>
    rw [List.range_succ, List.foldl_append, ih, List.foldl_cons, List.foldl_nil]
    rw [upsertQ_fresh]
    · rw [List.map_append]
      rfl
    · intro p hp
      simp only [List.mem_map] at hp
      obtain ⟨i, hi, rfl⟩ := hp
      have := List.mem_range.mp hi
      omega

/-- The pending placeholders are sorted by ascending id. -/
theorem sorted_pending_range (n : Nat) :
    List.Sorted qKeyLE ((List.range n).map (fun i => (i, pendingQDoc))) := by
  simp only [List.Sorted, List.pairwise_map]
  exact (List.pairwise_lt_range n).imp Nat.le_of_lt

/-- C7 amended: for a nonempty selection and a NONNEGATIVE
`target_count`, with `N = min(len(selected), target_count)`,
`start_generation` writes the job record with `total = N`,
`completed = 0`, status `"processing"` if `N > 0` else `"pending"`, then
writes exactly the `N` pending placeholders with dense ids `0..N-1` in
one batched write, before any of the `N` task dispatches; a listing taken
on the resulting state has exactly `N` elements, all `"pending"`.  (The
nonnegativity hypothesis is forced by the counterexample below.) -/
theorem c7_start_generation_layout (selected : List String) (target_count : Int)
    (N : Nat) (hne : selected ≠ []) (hnn : 0 ≤ target_count)
    (hN : N = min selected.length target_count.toNat) :
    start_generation selected target_count = some
      ({ meta := some { total := (N : Int), completed := 0,
                        status := if 0 < N then "processing" else "pending" },
         questions := (List.range N).map (fun i => (i, pendingQDoc)) },
       StartEvent.writeJob
           { total := (N : Int), completed := 0,
             status := if 0 < N then "processing" else "pending" }
         :: StartEvent.batchWriteUnits (List.range N)
         :: (List.range N).map StartEvent.dispatch) ∧
    (∀ st tr, start_generation selected target_count = some (st, tr) →
      (list_generated_exam st).elements.length = N ∧
      ∀ p ∈ (list_generated_exam st).elements, p.2.status = "pending") := by
  have hT : min (selected.length : Int) target_count = (N : Int) := by omega
  have hNle : N ≤ selected.length := by omega
  have htoNat : ((N : Int)).toNat = N := rfl
  have hchosen : pyTake ((N : Int)) selected = selected.take N := by
    simp [pyTake, htoNat]
  have htasks : (pyTake target_count selected).length = N := by
    simp only [pyTake, if_pos hnn, List.length_take]
    omega
  have hchlen : (selected.take N).length = N := by
    rw [List.length_take]
    omega
  have hquestions :
      (init_generated_exam_questions (selected.take N)
        (create_generated_exam ((N : Int)) emptyExam)).questions
      = (List.range N).map (fun i => (i, pendingQDoc)) := by
    simp only [init_generated_exam_questions, create_generated_exam, emptyExam,
      hchlen]
    exact initFold_range N
  have hstatus : (if (0 : Int) < (N : Int) then "processing" else "pending")
      = if 0 < N then "processing" else "pending" := by
    by_cases h : 0 < N
    · rw [if_pos h, if_pos (by exact_mod_cast h)]
    · rw [if_neg h, if_neg (by exact_mod_cast h)]
  have hmain : start_generation selected target_count = some
      ({ meta := some { total := (N : Int), completed := 0,
                        status := if 0 < N then "processing" else "pending" },
         questions := (List.range N).map (fun i => (i, pendingQDoc)) },
       StartEvent.writeJob
           { total := (N : Int), completed := 0,
             status := if 0 < N then "processing" else "pending" }
         :: StartEvent.batchWriteUnits (List.range N)
         :: (List.range N).map StartEvent.dispatch) := by
    simp only [start_generation, if_neg hne, hT, hchosen, htasks]
    simp only [init_generated_exam_questions, create_generated_exam, emptyExam,
      hchlen]
    rw [initFold_range N, hstatus]
  refine ⟨hmain, ?_⟩
  intro st tr h
  rw [hmain] at h
  have h₁ := Option.some.inj h
  have hst : st
      = { meta := some { total := (N : Int), completed := 0,
                         status := if 0 < N then "processing" else "pending" },
          questions := (List.range N).map (fun i => (i, pendingQDoc)) } :=
    (congrArg Prod.fst h₁).symm
  subst hst
  have hel : (list_generated_exam
      { meta := some { total := (N : Int), completed := 0,
                       status := if 0 < N then "processing" else "pending" },
        questions := (List.range N).map (fun i => (i, pendingQDoc)) }).elements
      = (List.range N).map (fun i => (i, pendingQDoc)) := by
    simp only [list_generated_exam]
    exact (sorted_pending_range N).insertionSort_eq
  rw [hel]
  constructor
  · simp
  · intro p hp
    simp only [List.mem_map] at hp
    obtain ⟨i, _, rfl⟩ := hp
    rfl

/-- C7 counterexample: the claim fails for a negative `target_count`
(accepted by the request schema).  With two selected questions and
`target_count = -1`, the job record is written with `total = -1` and
status `"pending"`, yet ONE placeholder (id 0) is written and ONE task is
dispatched — there is no `N` with `total = N` and `N` placeholders
`0..N-1`, since `-1 ≠ 1`. -/
theorem c7_counterexample_negative_target :
    start_generation ["a", "b"] (-1) = some
      ({ meta := some { total := -1, completed := 0, status := "pending" },
         questions := [(0, pendingQDoc)] },
       [StartEvent.writeJob { total := -1, completed := 0, status := "pending" },
        StartEvent.batchWriteUnits [0], StartEvent.dispatch 0]) ∧
    ((-1 : Int) ≠ 1) := by
  exact ⟨rfl, by decide⟩

/-- Witness for the amended C7 at a concrete selection of three questions
with `target_count = 2`. -/
theorem c7_start_generation_layout_witness :
    start_generation ["a", "b", "c"] 2 = some
      ({ meta := some { total := ((2 : Nat) : Int), completed := 0,
                        status := if 0 < 2 then "processing" else "pending" },
         questions := (List.range 2).map (fun i => (i, pendingQDoc)) },
       StartEvent.writeJob
           { total := ((2 : Nat) : Int), completed := 0,
             status := if 0 < 2 then "processing" else "pending" }
         :: StartEvent.batchWriteUnits (List.range 2)
         :: (List.range 2).map StartEvent.dispatch) ∧
    (∀ st tr, start_generation ["a", "b", "c"] 2 = some (st, tr) →
      (list_generated_exam st).elements.length = 2 ∧
      ∀ p ∈ (list_generated_exam st).elements, p.2.status = "pending") :=
  c7_start_generation_layout ["a", "b", "c"] 2 2 (by decide) (by decide) (by decide)

/-- C9: for a document whose `ocr_pages` field is present, the aggregated
OCR result list has exactly `ocr_total` entries, entry `i` being page
`i`'s stored markdown or the fixed error placeholder when missing. -/
theorem c9_ocr_results_full_length (d : DocState) (m : List (Nat × String))
    (h : d.ocr_pages = some m) :
    (get_ocr_pages_results (some d)).length = d.ocr_total ∧
    ∀ i, i < d.ocr_total →
      (get_ocr_pages_results (some d))[i]? =
        some ((m.lookup i).getD "% ERROR: Page not found") := by
  simp only [get_ocr_pages_results, h]
  constructor
  · simp
  · intro i hi
    rw [List.getElem?_map, List.getElem?_range hi]
    rfl

/-- Witness for C9 on a two-page document where page 1's result is
missing: the list still has length 2 and the missing slot carries the
error placeholder. -/
theorem c9_ocr_results_full_length_witness :
    (get_ocr_pages_results (some twoPageDoc)).length = 2 ∧
    (get_ocr_pages_results (some twoPageDoc))[1]?
      = some "% ERROR: Page not found" :=
  ⟨(c9_ocr_results_full_length twoPageDoc [(0, "alpha")] rfl).1,
   (c9_ocr_results_full_length twoPageDoc [(0, "alpha")] rfl).2 1 (by decide)⟩

/-- C10: querying a generated exam never fails — a missing exam record
(with its empty subcollection) yields the default view
`pending / 0 / 0 / []`, and an existing record yields its stored status,
total and completed together with the question documents sorted by
ascending numeric id, whatever order the store returned them in. -/
theorem c10_list_generated_exam_view (st : GenExam) :
    (st.meta = none → st.questions = [] →
      list_generated_exam st
        = { status := "pending", total := 0, completed := 0, elements := [] }) ∧
    ∀ g, st.meta = some g →
      (list_generated_exam st).status = g.status ∧
      (list_generated_exam st).total = g.total ∧
      (list_generated_exam st).completed = g.completed ∧
      List.Sorted qKeyLE (list_generated_exam st).elements ∧
      (list_generated_exam st).elements.Perm st.questions := by
  constructor
  · intro h1 h2
    simp [list_generated_exam, h1, h2]
  · intro g hg
    refine ⟨?_, ?_, ?_, ?_, ?_⟩
    · simp [list_generated_exam, hg]
    · simp [list_generated_exam, hg]
    · simp [list_generated_exam, hg]
    · exact List.sorted_insertionSort qKeyLE st.questions
    · exact List.perm_insertionSort qKeyLE st.questions

/-- Witness for C10: the default view for a never-created exam, and the
stored view (with out-of-order question documents re-sorted) for an
existing one. -/
theorem c10_list_generated_exam_view_witness :
    list_generated_exam emptyExam
      = { status := "pending", total := 0, completed := 0, elements := [] } ∧
    (list_generated_exam midExam).status = "processing" ∧
    List.Sorted qKeyLE (list_generated_exam midExam).elements ∧
    (list_generated_exam midExam).elements.Perm
      [(2, pendingQDoc), (0, pendingQDoc)] :=
  ⟨(c10_list_generated_exam_view emptyExam).1 rfl rfl,
   ((c10_list_generated_exam_view midExam).2 _ rfl).1,
   ((c10_list_generated_exam_view midExam).2 _ rfl).2.2.2.1,
   ((c10_list_generated_exam_view midExam).2 _ rfl).2.2.2.2⟩

end DethiAi
